import Mathlib

/-!
Shallow embedding of `manage_helm_charts.py`: a CLI facade over the
Artifact Hub HTTP API and the external `helm` binary.  HTTP transport and
subprocess execution are modelled as functions supplied in an `Env`
record; every facade operation returns the trace of requests or commands
it issued together with its result, so that properties about what is
issued (and in which order) can be stated and proved.
-/

namespace MHC

/-- JSON values, as returned by the Artifact Hub API and consumed with
Python dict/key access in the source. -/
inductive Json where
  | null : Json
  | str : String → Json
  | num : Int → Json
  | arr : List Json → Json
  | obj : List (String × Json) → Json

/-- Python `dict.get(key)`: `some` value when the key is present on an
object, `none` otherwise (also on non-objects, where the source would
have failed earlier). -/
def Json.lookup : Json → String → Option Json
  | .obj fields, k => List.lookup k fields
  | _, _ => none

/-- Rendering of a JSON value inside a Python f-string (`str(value)`).
Only the scalar cases matter to any displayed line in the source. -/
def Json.render : Json → String
  | .null => "None"
  | .str s => s
  | .num n => toString n
  | .arr _ => "[...]"
  | .obj _ => "\x7b...\x7d"

/-- Errors raised inside the facade, mirroring the Python exceptions:
`ValueError` from tuple unpacking in `get_chart_details`, `HTTPError`
from `raise_for_status`, the wrapped `Exception` around
`CalledProcessError`, and `KeyError`/`TypeError` from dict access in
`main`. -/
inductive HelmError where
  | invalidReference : Nat → HelmError
  | requestError : Nat → HelmError
  | externalCommandError : String → HelmError
  | keyError : String → HelmError
  | typeError : HelmError

/-- `str(e)` for each modelled exception. -/
def errMsg : HelmError → String
  | .invalidReference parts =>
      if parts < 2 then
        "not enough values to unpack (expected 2, got " ++ toString parts ++ ")"
      else "too many values to unpack (expected 2)"
  | .requestError status => toString status ++ " Error for request"
  | .externalCommandError msg => msg
  | .keyError k => "KeyError: " ++ k
  | .typeError => "unsupported operand type"

/-- `str(subprocess.CalledProcessError(code, cmd))`. -/
def cpeStr (cmd : List String) (code : Nat) : String :=
  "Command " ++ toString cmd ++ " returned non-zero exit status " ++
    toString code ++ "."

/-- One HTTP GET: the URL and the query parameters. -/
structure HttpRequest where
  url : String
  params : List (String × String)

/-- An HTTP response: status code and JSON body. -/
structure HttpResponse where
  status : Nat
  body : Json

/-- The external world: the HTTP transport (`requests.Session.get`) and
the subprocess layer (`subprocess.run`, returning exit code and captured
standard output). -/
structure Env where
  http : String → List (String × String) → HttpResponse
  exec : List String → Nat × String

/-- `requests.Response.raise_for_status` raises exactly on 4xx and 5xx
status codes. -/
def raisesForStatus (status : Nat) : Prop := 400 ≤ status ∧ status < 600

instance (status : Nat) : Decidable (raisesForStatus status) :=
  inferInstanceAs (Decidable (_ ∧ _))

/-- Python `str.split(sep)` restricted to a one-character separator, on
the character list of the string: splits at every occurrence, keeping
empty segments, and yields one segment even for the empty input. -/
def splitOnChar (c : Char) : List Char → List (List Char)
  | [] => [[]]
  | x :: xs =>
      if x = c then [] :: splitOnChar c xs
      else
        match splitOnChar c xs with
        | r :: rs => (x :: r) :: rs
        | [] => [[x]]

/-- Python `s.split(c)` as a list of strings. -/
def pySplit (s : String) (c : Char) : List String :=
  (splitOnChar c s.toList).map (fun l => ⟨l⟩)

def ARTIFACT_HUB_API : String := "https://artifacthub.io/api/v1"

/-- The single GET issued by `search_charts`. -/
def searchRequest (keyword : String) : HttpRequest :=
  ⟨ARTIFACT_HUB_API ++ "/packages/search",
   [("kind", "0"), ("ts_query", keyword), ("sort", "relevance")]⟩

/-- `HelmChartManager.search_charts`: one GET to the search endpoint;
raises on 4xx/5xx, otherwise returns `response.json().get("packages", [])`.
The first component is the trace of HTTP requests issued. -/
def search_charts (env : Env) (keyword : String) :
    List HttpRequest × Except HelmError Json :=
  let req := searchRequest keyword
  let resp := env.http req.url req.params
  if raisesForStatus resp.status then
    ([req], .error (.requestError resp.status))
  else
    ([req], .ok ((Json.lookup resp.body "packages").getD (.arr [])))

/-- The GET issued by `get_chart_details` for a parsed reference. -/
def detailsRequest (repo chart : String) : HttpRequest :=
  ⟨ARTIFACT_HUB_API ++ "/packages/helm/" ++ repo ++ "/" ++ chart, []⟩

/-- `HelmChartManager.get_chart_details`: `repo, chart = name.split("/")`
(raising `ValueError` unless the split yields exactly two parts, before
any request is issued), then one GET to the details endpoint. -/
def get_chart_details (env : Env) (name : String) :
    List HttpRequest × Except HelmError Json :=
  match pySplit name '/' with
  | [repo, chart] =>
      let resp := env.http (detailsRequest repo chart).url (detailsRequest repo chart).params
      if raisesForStatus resp.status then
        ([detailsRequest repo chart], .error (.requestError resp.status))
      else
        ([detailsRequest repo chart], .ok resp.body)
  | _ => ([], .error (.invalidReference (pySplit name '/').length))

def repoAddCmd (name url : String) : List String :=
  ["helm", "repo", "add", name, url]

def repoUpdateCmd : List String := ["helm", "repo", "update"]

/-- `HelmChartManager.add_helm_repo`: runs `helm repo add` then
`helm repo update`, each with `check=True`; a `CalledProcessError` is
re-raised as a wrapped `Exception`, so the update is never attempted when
the add fails.  The first component is the trace of commands issued. -/
def add_helm_repo (env : Env) (name url : String) :
    List (List String) × Except HelmError Unit :=
  let r1 := env.exec (repoAddCmd name url)
  if r1.1 = 0 then
    let r2 := env.exec repoUpdateCmd
    if r2.1 = 0 then ([repoAddCmd name url, repoUpdateCmd], .ok ())
    else
      ([repoAddCmd name url, repoUpdateCmd],
       .error (.externalCommandError
         ("Failed to add Helm repository: " ++ cpeStr repoUpdateCmd r2.1)))
  else
    ([repoAddCmd name url],
     .error (.externalCommandError
       ("Failed to add Helm repository: " ++ cpeStr (repoAddCmd name url) r1.1)))

/-- The argument list built by `install_chart`: the version flag is
appended only when `version` is truthy in Python, i.e. present and
non-empty. -/
def installCmd (name releaseName ns : String) (version : Option String) :
    List String :=
  let cmd := ["helm", "install", releaseName, name, "--namespace", ns]
  match version with
  | some v => if v = "" then cmd else cmd ++ ["--version", v]
  | none => cmd

/-- `HelmChartManager.install_chart`: one `helm install` invocation with
`check=True`; failure is re-raised as a wrapped `Exception`. -/
def install_chart (env : Env) (name releaseName ns : String)
    (version : Option String) : List (List String) × Except HelmError Unit :=
  let cmd := installCmd name releaseName ns version
  let r := env.exec cmd
  if r.1 = 0 then ([cmd], .ok ())
  else
    ([cmd], .error (.externalCommandError
      ("Failed to install chart: " ++ cpeStr cmd r.1)))

/-- The argument list built by `list_releases`: the `-n` flag is appended
only when `namespace` is truthy in Python, i.e. present and non-empty. -/
def listCmd (ns : Option String) : List String :=
  let cmd := ["helm", "list"]
  match ns with
  | some n => if n = "" then cmd else cmd ++ ["-n", n]
  | none => cmd

/-- `HelmChartManager.list_releases`: one `helm list` invocation with
`check=True` and `capture_output=True`; on success returns the captured
standard output verbatim. -/
def list_releases (env : Env) (ns : Option String) :
    List (List String) × Except HelmError String :=
  let cmd := listCmd ns
  let r := env.exec cmd
  if r.1 = 0 then ([cmd], .ok r.2)
  else
    ([cmd], .error (.externalCommandError
      ("Failed to list releases: " ++ cpeStr cmd r.1)))

/-- The argument list built by `uninstall_release`. -/
def uninstallCmd (releaseName ns : String) : List String :=
  ["helm", "uninstall", releaseName, "-n", ns]

/-- `HelmChartManager.uninstall_release`: one `helm uninstall` invocation
with `check=True`; failure is re-raised as a wrapped `Exception`. -/
def uninstall_release (env : Env) (releaseName ns : String) :
    List (List String) × Except HelmError Unit :=
  let cmd := uninstallCmd releaseName ns
  let r := env.exec cmd
  if r.1 = 0 then ([cmd], .ok ())
  else
    ([cmd], .error (.externalCommandError
      ("Failed to uninstall release: " ++ cpeStr cmd r.1)))

/-- Python `value[key]` on a JSON value: `KeyError` when the key is
missing on an object, `TypeError` on a non-object. -/
def pyGetItem (j : Json) (k : String) : Except HelmError Json :=
  match j with
  | .obj fields =>
      match List.lookup k fields with
      | some v => .ok v
      | none => .error (.keyError k)
  | _ => .error .typeError

/-- The four `print` lines of the search loop body for one chart; a
`KeyError` leaves the lines already printed in place, as in Python. -/
def formatChart (chart : Json) : List String × Option HelmError :=
  match pyGetItem chart "name" with
  | .error e => ([], some e)
  | .ok nm =>
    match pyGetItem chart "repository" with
    | .error e => (["\nName: " ++ nm.render], some e)
    | .ok repo =>
      match pyGetItem repo "name" with
      | .error e => (["\nName: " ++ nm.render], some e)
      | .ok rn =>
        match pyGetItem chart "description" with
        | .error e =>
            (["\nName: " ++ nm.render, "Repository: " ++ rn.render], some e)
        | .ok desc =>
            let ver := (Json.lookup chart "version").getD (.str "N/A")
            (["\nName: " ++ nm.render, "Repository: " ++ rn.render,
              "Description: " ++ desc.render, "Version: " ++ ver.render],
             none)

/-- The search display loop `for chart in charts[:5]` (applied to the
already-truncated list): output accumulates until the first error. -/
def displayCharts : List Json → List String × Option HelmError
  | [] => ([], none)
  | c :: cs =>
      match formatChart c with
      | (lines, some e) => (lines, some e)
      | (lines, none) =>
          let r := displayCharts cs
          (lines ++ r.1, r.2)

/-- The four `print` lines of the info branch, with Python partial-print
behaviour on `KeyError`. -/
def displayDetails (details : Json) : List String × Option HelmError :=
  match pyGetItem details "name" with
  | .error e => ([], some e)
  | .ok nm =>
    match pyGetItem details "description" with
    | .error e => (["\nName: " ++ nm.render], some e)
    | .ok desc =>
      let ver := (Json.lookup details "version").getD (.str "N/A")
      match pyGetItem details "repository" with
      | .error e =>
          (["\nName: " ++ nm.render, "Description: " ++ desc.render,
            "Version: " ++ ver.render], some e)
      | .ok repo =>
        match pyGetItem repo "url" with
        | .error e =>
            (["\nName: " ++ nm.render, "Description: " ++ desc.render,
              "Version: " ++ ver.render], some e)
        | .ok u =>
            (["\nName: " ++ nm.render, "Description: " ++ desc.render,
              "Version: " ++ ver.render, "Repository URL: " ++ u.render],
             none)

/-- The five CLI subcommands dispatched in `main`, with the argparse
defaults already applied (`namespace` defaults to "default" for install
and uninstall, and to absent for list-releases; `version` defaults to
absent). -/
inductive Command where
  | search (keyword : String)
  | info (name : String)
  | install (name releaseName ns : String) (version : Option String)
  | listReleases (ns : Option String)
  | uninstall (releaseName ns : String)

/-- The body of the `try` block in `main`: the lines printed before any
exception, and the exception if one escapes the dispatched branch. -/
def runCommand (env : Env) : Command → List String × Option HelmError
  | .search kw =>
      match (search_charts env kw).2 with
      | .error e => ([], some e)
      | .ok j =>
          match j with
          | .arr xs => displayCharts (xs.take 5)
          | _ => ([], some .typeError)
  | .info name =>
      match (get_chart_details env name).2 with
      | .error e => ([], some e)
      | .ok details => displayDetails details
  | .install name releaseName ns version =>
      match (install_chart env name releaseName ns version).2 with
      | .error e => ([], some e)
      | .ok _ =>
          (["Successfully installed " ++ name ++ " as " ++ releaseName], none)
  | .listReleases ns =>
      match (list_releases env ns).2 with
      | .error e => ([], some e)
      | .ok out => ([out], none)
  | .uninstall releaseName ns =>
      match (uninstall_release env releaseName ns).2 with
      | .error e => ([], some e)
      | .ok _ => (["Successfully uninstalled " ++ releaseName], none)

/-- `main`: the `try`/`except Exception` wrapper around command dispatch.
Any escaping exception is printed as one `Error: ...` line; the process
never sets a non-zero exit status, so the second component (the exit
code) is 0 on every path. -/
def main (env : Env) (cmd : Command) : List String × Nat :=
  match (runCommand env cmd).2 with
  | some e => ((runCommand env cmd).1 ++ ["Error: " ++ errMsg e], 0)
  | none => ((runCommand env cmd).1, 0)

/-! ### Concrete environments and data for evaluating the operations -/

/-- An environment whose transport always answers 200 with an empty JSON
object and whose subprocess layer always succeeds with empty output. -/
def envOk : Env := ⟨fun _ _ => ⟨200, .obj []⟩, fun _ => (0, "")⟩

/-- An environment whose transport always answers 500 and whose
subprocess layer always exits 1. -/
def envFail : Env := ⟨fun _ _ => ⟨500, .null⟩, fun _ => (1, "")⟩

/-- An environment whose subprocess layer succeeds and prints a fixed
release table. -/
def envTable : Env :=
  ⟨fun _ _ => ⟨200, .obj []⟩, fun _ => (0, "NAME NAMESPACE REVISION")⟩

/-- A sample search-result package object. -/
def pkg (i : Nat) : Json :=
  .obj [("name", .str ("chart" ++ toString i)),
        ("repository", .obj [("name", .str "bitnami")]),
        ("description", .str "a chart")]

/-- Seven sample packages: more than the display cap of five. -/
def pkgs7 : List Json :=
  [pkg 1, pkg 2, pkg 3, pkg 4, pkg 5, pkg 6, pkg 7]

/-- An environment whose transport answers the search endpoint with seven
packages. -/
def envSearch7 : Env :=
  ⟨fun _ _ => ⟨200, .obj [("packages", .arr pkgs7)]⟩, fun _ => (0, "")⟩

/-- The error raised by `uninstall_release` under `envFail`. -/
def errUninstallFail : HelmError :=
  .externalCommandError
    ("Failed to uninstall release: " ++ cpeStr (uninstallCmd "r1" "default") 1)

/-! ### Basic lemmas about the embedded pieces -/

theorem splitOnChar_ne_nil (c : Char) (l : List Char) :
    splitOnChar c l ≠ [] := by
  cases l with
  | nil => simp [splitOnChar]
  | cons x xs =>
    simp only [splitOnChar]
    split
    · simp
    · split <;> simp

theorem length_splitOnChar (c : Char) (l : List Char) :
    (splitOnChar c l).length = l.count c + 1 := by
  induction l with
  | nil => simp [splitOnChar]
  | cons x xs ih =>
    simp only [splitOnChar]
    by_cases h : x = c
    · subst h
      simp [List.count_cons, ih]
    · rcases hsp : splitOnChar c xs with _ | ⟨r, rs⟩
      · exact absurd hsp (splitOnChar_ne_nil c xs)
      · rw [hsp] at ih
        have hxc : (c == x) = false := by
          simp [beq_iff_eq]
          intro hcx
          exact h hcx.symm
        simp [h, hsp, List.count_cons, hxc] at ih ⊢
        omega

theorem length_pySplit (s : String) (c : Char) :
    (pySplit s c).length = s.toList.count c + 1 := by
  simpa [pySplit] using length_splitOnChar c s.toList

theorem formatChart_length_le (c : Json) : (formatChart c).1.length ≤ 4 := by
  unfold formatChart
  repeat' split
  all_goals simp only [List.length_cons, List.length_nil]
  all_goals omega

theorem displayCharts_length_le (l : List Json) :
    (displayCharts l).1.length ≤ 4 * l.length := by
  induction l with
  | nil => simp [displayCharts]
  | cons c cs ih =>
    rcases hf : formatChart c with ⟨lines, err⟩
    have hc : lines.length ≤ 4 := by
      have h4 := formatChart_length_le c
      rw [hf] at h4
      exact h4
    cases err with
    | some e =>
        simp only [displayCharts, hf, List.length_cons]
        omega
    | none =>
        simp only [displayCharts, hf, List.length_append, List.length_cons]
        omega

/-! ### Claim theorems -/

/-- C1: for every input string passed to `get_chart_details`, if the
separator `/` is absent or occurs more than once the operation fails with
the unpacking error and issues no HTTP request; a GET to the details
endpoint is issued exactly when the input contains exactly one separator,
and it is keyed by the repository part and the chart part of the split. -/
theorem getDetails_separator_invariant (env : Env) (name : String) :
    (name.toList.count '/' ≠ 1 →
      get_chart_details env name =
        ([], .error (.invalidReference (pySplit name '/').length))) ∧
    (name.toList.count '/' = 1 →
      ∃ repo chart, pySplit name '/' = [repo, chart] ∧
        (get_chart_details env name).1 = [detailsRequest repo chart]) := by
  have hlen := length_pySplit name '/'
  constructor
  · intro hne
    rcases hsp : pySplit name '/' with _ | ⟨a, _ | ⟨b, _ | ⟨d, tl⟩⟩⟩
    · rw [hsp] at hlen
      simp at hlen
    · simp [get_chart_details, hsp]
    · rw [hsp] at hlen
      simp at hlen
      exact absurd hlen hne
    · simp [get_chart_details, hsp]
  · intro h1
    have h2 : (pySplit name '/').length = 2 := by rw [hlen, h1]
    rcases hsp : pySplit name '/' with _ | ⟨a, _ | ⟨b, _ | ⟨d, tl⟩⟩⟩
    · rw [hsp] at h2
      simp at h2
    · rw [hsp] at h2
      simp at h2
    · refine ⟨a, b, rfl, ?_⟩
      simp only [get_chart_details, hsp]
      split <;> rfl
    · rw [hsp] at h2
      simp at h2

/-- Witness for C1: `"bitnami"` (no separator) fails before any request
with no request issued, and `"bitnami/redis"` issues the details GET
keyed by repository `bitnami` and chart `redis`. -/
theorem getDetails_separator_invariant_witness :
    ("bitnami".toList.count '/' ≠ 1 ∧
      get_chart_details envOk "bitnami" = ([], .error (.invalidReference 1))) ∧
    ("bitnami/redis".toList.count '/' = 1 ∧
      (get_chart_details envOk "bitnami/redis").1 =
        [detailsRequest "bitnami" "redis"]) := by
  constructor
  · exact ⟨by decide, (getDetails_separator_invariant envOk "bitnami").1 (by decide)⟩
  · refine ⟨by decide, ?_⟩
    obtain ⟨r, c, hsp, htr⟩ :=
      (getDetails_separator_invariant envOk "bitnami/redis").2 (by decide)
    have hsp2 : pySplit "bitnami/redis" '/' = ["bitnami", "redis"] := rfl
    rw [hsp2] at hsp
    obtain ⟨hr, hc⟩ : "bitnami" = r ∧ "redis" = c := by simpa using hsp
    subst hr
    subst hc
    exact htr

/-- C2: for every keyword, `search_charts` issues exactly one GET to the
search endpoint with parameters `kind=0`, `ts_query` equal to the
keyword, and `sort=relevance`; and when the response carries a list, the
search command displays only the first five entries — at most twenty
output lines (four per chart) — even when the list is longer. -/
theorem search_single_get_and_cap (env : Env) (kw : String) :
    (search_charts env kw).1 =
      [⟨ARTIFACT_HUB_API ++ "/packages/search",
        [("kind", "0"), ("ts_query", kw), ("sort", "relevance")]⟩] ∧
    ∀ xs : List Json, (search_charts env kw).2 = .ok (.arr xs) →
      runCommand env (.search kw) = displayCharts (xs.take 5) ∧
      (runCommand env (.search kw)).1.length ≤ 4 * 5 := by
  constructor
  · simp only [search_charts, searchRequest]
    split <;> rfl
  · intro xs h
    have hrc : runCommand env (.search kw) = displayCharts (xs.take 5) := by
      simp [runCommand, h]
    refine ⟨hrc, ?_⟩
    rw [hrc]
    have hd := displayCharts_length_le (xs.take 5)
    have hle : (xs.take 5).length ≤ 5 := by
      rw [List.length_take]
      exact Nat.min_le_left _ _
    omega

/-- Witness for C2: an environment returning seven packages; the search
command output is the display of the first five only, within the
twenty-line bound. -/
theorem search_single_get_and_cap_witness :
    (search_charts envSearch7 "redis").2 = .ok (.arr pkgs7) ∧
    runCommand envSearch7 (.search "redis") = displayCharts (pkgs7.take 5) ∧
    (runCommand envSearch7 (.search "redis")).1.length ≤ 4 * 5 := by
  have h := (search_single_get_and_cap envSearch7 "redis").2 pkgs7 rfl
  exact ⟨rfl, h.1, h.2⟩

/-- C3 counterexample: the version `some ""` is a supplied version, yet
the command built by `install_chart` carries no `--version` flag, because
the source tests the version for Python truthiness rather than for
presence. -/
theorem installCmd_supplied_version_counterexample :
    ¬ ("--version" ∈ installCmd "bitnami/redis" "r1" "default" (some "")) := by
  decide

/-- C3 amended: with no version, or with the empty-string version, the
command built by `install_chart` contains no `--version` flag; with a
non-empty version supplied, the flag and its value are present and
positioned after the chart reference. -/
theorem installCmd_version_flag (env : Env) (name rel ns v : String)
    (hv : v ≠ "") :
    installCmd name rel ns none =
      ["helm", "install", rel, name, "--namespace", ns] ∧
    installCmd name rel ns (some v) =
      ["helm", "install", rel, name, "--namespace", ns, "--version", v] ∧
    (install_chart env name rel ns none).1 =
      [["helm", "install", rel, name, "--namespace", ns]] ∧
    (install_chart env name rel ns (some v)).1 =
      [["helm", "install", rel, name, "--namespace", ns, "--version", v]] := by
  have h2 : installCmd name rel ns (some v) =
      ["helm", "install", rel, name, "--namespace", ns, "--version", v] := by
    simp [installCmd, hv]
  refine ⟨rfl, h2, ?_, ?_⟩
  · simp only [install_chart]
    split <;> rfl
  · simp only [install_chart, h2]
    split <;> rfl

/-- Witness for C3 amended: version `17.0.0` yields the `--version` flag
directly after the chart reference. -/
theorem installCmd_version_flag_witness :
    ("17.0.0" : String) ≠ "" ∧
    installCmd "bitnami/redis" "r1" "default" (some "17.0.0") =
      ["helm", "install", "r1", "bitnami/redis", "--namespace", "default",
       "--version", "17.0.0"] := by
  have h :=
    installCmd_version_flag envOk "bitnami/redis" "r1" "default" "17.0.0"
      (by decide)
  exact ⟨by decide, h.2.1⟩

/-- C4: when `helm repo add` exits non-zero, `add_helm_repo` issues only
that one command — `helm repo update` is never attempted — and fails with
the wrapped external-command error. -/
theorem addRepo_fail_fast (env : Env) (name url : String)
    (h : (env.exec (repoAddCmd name url)).1 ≠ 0) :
    (add_helm_repo env name url).1 = [repoAddCmd name url] ∧
    repoUpdateCmd ∉ (add_helm_repo env name url).1 ∧
    ∃ m, (add_helm_repo env name url).2 =
      .error (.externalCommandError m) := by
  have hr : add_helm_repo env name url =
      ([repoAddCmd name url],
       .error (.externalCommandError
         ("Failed to add Helm repository: " ++
           cpeStr (repoAddCmd name url) (env.exec (repoAddCmd name url)).1))) := by
    simp [add_helm_repo, h]
  rw [hr]
  refine ⟨rfl, ?_, ⟨_, rfl⟩⟩
  simp [repoUpdateCmd, repoAddCmd]

/-- Witness for C4: under an always-failing subprocess layer, adding a
repository issues exactly the add command and never the update. -/
theorem addRepo_fail_fast_witness :
    (envFail.exec (repoAddCmd "bitnami" "https://charts.example.com")).1 ≠ 0 ∧
    (add_helm_repo envFail "bitnami" "https://charts.example.com").1 =
      [repoAddCmd "bitnami" "https://charts.example.com"] ∧
    repoUpdateCmd ∉
      (add_helm_repo envFail "bitnami" "https://charts.example.com").1 := by
  have h :=
    addRepo_fail_fast envFail "bitnami" "https://charts.example.com" (by decide)
  exact ⟨by decide, h.1, h.2.1⟩

/-- C5: when the response status does not raise and the JSON body lacks
the `packages` field, `search_charts` returns the empty list rather than
failing. -/
theorem search_missing_packages_empty (env : Env) (kw : String)
    (hst : ¬ raisesForStatus
      (env.http (searchRequest kw).url (searchRequest kw).params).status)
    (hmiss : Json.lookup
      (env.http (searchRequest kw).url (searchRequest kw).params).body
      "packages" = none) :
    (search_charts env kw).2 = .ok (.arr []) := by
  simp [search_charts, hst, hmiss]

/-- Witness for C5: a 200 response with an empty JSON object body yields
the empty package list. -/
theorem search_missing_packages_empty_witness :
    ¬ raisesForStatus
      (envOk.http (searchRequest "redis").url (searchRequest "redis").params).status ∧
    Json.lookup
      (envOk.http (searchRequest "redis").url (searchRequest "redis").params).body
      "packages" = none ∧
    (search_charts envOk "redis").2 = .ok (.arr []) :=
  ⟨by decide, rfl, search_missing_packages_empty envOk "redis" (by decide) rfl⟩

/-- C6: for every release name and namespace, `uninstall_release` invokes
exactly one command, whose arguments after the binary name are exactly
the uninstall verb, the release name, `-n`, and the namespace, in that
order. -/
theorem uninstall_cmd_exact (env : Env) (r n : String) :
    (uninstall_release env r n).1 = [uninstallCmd r n] ∧
    uninstallCmd r n = ["helm", "uninstall", r, "-n", n] ∧
    (uninstallCmd r n).drop 1 = ["uninstall", r, "-n", n] := by
  refine ⟨?_, rfl, rfl⟩
  simp only [uninstall_release]
  split <;> rfl

/-- C7: `list_releases` with no namespace builds `helm list` with no
namespace flag, with namespace `ns1` it builds `helm list -n ns1`, and on
a zero exit it returns the captured standard output verbatim. -/
theorem list_cmd_and_stdout (env : Env) (ns : Option String) (out : String)
    (h : env.exec (listCmd ns) = (0, out)) :
    listCmd none = ["helm", "list"] ∧
    listCmd (some "ns1") = ["helm", "list", "-n", "ns1"] ∧
    (list_releases env ns).1 = [listCmd ns] ∧
    (list_releases env ns).2 = .ok out := by
  refine ⟨rfl, by decide, ?_, ?_⟩
  · simp only [list_releases]
    split <;> rfl
  · simp [list_releases, h]

/-- Witness for C7: a succeeding subprocess layer with a fixed table;
the namespaced command and the verbatim output are observed. -/
theorem list_cmd_and_stdout_witness :
    envTable.exec (listCmd (some "ns1")) = (0, "NAME NAMESPACE REVISION") ∧
    (list_releases envTable (some "ns1")).2 = .ok "NAME NAMESPACE REVISION" ∧
    listCmd (some "ns1") = ["helm", "list", "-n", "ns1"] := by
  have h := list_cmd_and_stdout envTable (some "ns1") "NAME NAMESPACE REVISION" rfl
  exact ⟨rfl, h.2.2.2, h.2.1⟩

/-- C9: an empty-string version is treated exactly as an absent version:
`install_chart` builds the same command, with no `--version` flag. -/
theorem installCmd_empty_version_as_none (env : Env) (name rel ns : String) :
    installCmd name rel ns (some "") = installCmd name rel ns none ∧
    installCmd name rel ns (some "") =
      ["helm", "install", rel, name, "--namespace", ns] ∧
    install_chart env name rel ns (some "") =
      install_chart env name rel ns none := by
  exact ⟨rfl, rfl, rfl⟩

/-- C10: an empty-string namespace is treated exactly as an absent one:
`list_releases` builds the same `helm list` command, with no `-n` flag. -/
theorem listCmd_empty_namespace_as_none (env : Env) :
    listCmd (some "") = listCmd none ∧
    listCmd none = ["helm", "list"] ∧
    "-n" ∉ listCmd (some "") ∧
    list_releases env (some "") = list_releases env none := by
  exact ⟨rfl, rfl, by decide, rfl⟩

/-- C8: for every command, the exit status of `main` is 0; any error
escaping the dispatched branch is caught once at the top level and
converted to a single appended line beginning `Error: `; no error means
no such line; and every error raised by a facade operation (invalid
reference, request error, external command error) escapes its branch to
that single handler. -/
theorem main_catches_all_errors (env : Env) (cmd : Command) :
    (main env cmd).2 = 0 ∧
    (∀ e, (runCommand env cmd).2 = some e →
      (main env cmd).1 = (runCommand env cmd).1 ++ ["Error: " ++ errMsg e]) ∧
    ((runCommand env cmd).2 = none →
      (main env cmd).1 = (runCommand env cmd).1) ∧
    (∀ kw e, cmd = .search kw → (search_charts env kw).2 = .error e →
      (runCommand env cmd).2 = some e) ∧
    (∀ nm e, cmd = .info nm → (get_chart_details env nm).2 = .error e →
      (runCommand env cmd).2 = some e) ∧
    (∀ nm rel ns v e, cmd = .install nm rel ns v →
      (install_chart env nm rel ns v).2 = .error e →
      (runCommand env cmd).2 = some e) ∧
    (∀ ns e, cmd = .listReleases ns → (list_releases env ns).2 = .error e →
      (runCommand env cmd).2 = some e) ∧
    (∀ rel ns e, cmd = .uninstall rel ns →
      (uninstall_release env rel ns).2 = .error e →
      (runCommand env cmd).2 = some e) := by
  refine ⟨?_, ?_, ?_, ?_, ?_, ?_, ?_, ?_⟩
  · cases h : (runCommand env cmd).2 <;> simp [main, h]
  · intro e he
    simp [main, he]
  · intro h
    simp [main, h]
  · intro kw e hc hs
    subst hc
    simp [runCommand, hs]
  · intro nm e hc hs
    subst hc
    simp [runCommand, hs]
  · intro nm rel ns v e hc hs
    subst hc
    simp [runCommand, hs]
  · intro ns e hc hs
    subst hc
    simp [runCommand, hs]
  · intro rel ns e hc hs
    subst hc
    simp [runCommand, hs]

/-- Witness for C8: under the always-failing subprocess layer, the
uninstall command exits with status 0 and prints exactly one appended
`Error: ` line carrying the wrapped external-command error. -/
theorem main_catches_all_errors_witness :
    (main envFail (.uninstall "r1" "default")).2 = 0 ∧
    (uninstall_release envFail "r1" "default").2 = .error errUninstallFail ∧
    (runCommand envFail (.uninstall "r1" "default")).2 =
      some errUninstallFail ∧
    (main envFail (.uninstall "r1" "default")).1 =
      (runCommand envFail (.uninstall "r1" "default")).1 ++
        ["Error: " ++ errMsg errUninstallFail] := by
  have h := main_catches_all_errors envFail (.uninstall "r1" "default")
  have h8 := h.2.2.2.2.2.2.2 "r1" "default" errUninstallFail rfl rfl
  exact ⟨h.1, rfl, h8, h.2.1 errUninstallFail h8⟩

end MHC
